import Mathlib

set_option maxHeartbeats 1000000
set_option maxRecDepth 8192
set_option linter.unnecessarySeqFocus false

namespace VideoStream

/-- Rust std io ErrorKind values distinguished by the CLI error mapping in
src/crates/videostream-cli/src/error.rs; every other kind collapses to
`other`, mirroring the catch-all arm of the match. -/
inductive IoErrorKind
  | notFound
  | timedOut
  | connectionRefused
  | connectionReset
  | connectionAborted
  | brokenPipe
  | permissionDenied
  | other
  deriving DecidableEq, Repr

/-- Rust std io Error as the wrappers produce it via last_os_error: an error
kind together with the OS errno captured at the failing call site. -/
structure IoError where
  kind : IoErrorKind
  osCode : Int
  deriving DecidableEq, Repr

/-- The Error enum of src/crates/videostream/src/lib.rs (lines 151 to 175).
The foreign payloads of LibraryNotLoaded, Utf8, CString and TryFromInt are
irrelevant to every claim and omitted. Note the enum has exactly the variants
listed here and in particular has no InvalidFormat variant. -/
inductive Error
  | libraryNotLoaded
  | ioErr (err : IoError)
  | utf8
  | cstring
  | tryFromInt
  | nullPointer
  | symbolNotFound (sym : String)
  | hardwareNotAvailable (hw : String)
  deriving DecidableEq, Repr

/-- FourCC from src/crates/videostream/src/fourcc.rs (line 11): a wrapper
around four u8 bytes; bytes are modelled as Fin 256. -/
structure FourCC where
  b0 : Fin 256
  b1 : Fin 256
  b2 : Fin 256
  b3 : Fin 256
  deriving DecidableEq, Repr

/-- FourCC to_u32 (fourcc.rs lines 14 to 29), little endian branch, the
branch compiled on the little endian targets this library supports. -/
def FourCC.toU32 (c : FourCC) : Nat :=
  ((c.b3.val <<< 24) &&& 0xff000000) |||
    ((c.b2.val <<< 16) &&& 0x00ff0000) |||
    ((c.b1.val <<< 8) &&& 0x0000ff00) |||
    (c.b0.val &&& 0x000000ff)

/-- The Rust cast to u8: truncation modulo 256. -/
def byteOf (x : Nat) : Fin 256 := ⟨x % 256, Nat.mod_lt x (by decide)⟩

/-- The From u32 conversion for FourCC (fourcc.rs lines 42 to 62), little
endian branch: bytes extracted by shifting and masking, each cast to u8. -/
def FourCC.ofU32 (val : Nat) : FourCC where
  b0 := byteOf (val &&& 0xff)
  b1 := byteOf ((val >>> 8) &&& 0xff)
  b2 := byteOf ((val >>> 16) &&& 0xff)
  b3 := byteOf ((val >>> 24) &&& 0xff)

lemma mask_shift24 : ∀ b : Fin 256, ((b.val <<< 24) &&& 0xff000000) = 16777216 * b.val := by
  decide

lemma mask_shift16 : ∀ b : Fin 256, ((b.val <<< 16) &&& 0x00ff0000) = 65536 * b.val := by
  decide

lemma mask_shift8 : ∀ b : Fin 256, ((b.val <<< 8) &&& 0x0000ff00) = 256 * b.val := by
  decide

lemma mask_low : ∀ b : Fin 256, (b.val &&& 0x000000ff) = b.val := by
  decide

lemma or_add_of_lt {i b : Nat} (h : b < 2 ^ i) (a : Nat) :
    ((2 ^ i) * a) ||| b = (2 ^ i) * a + b :=
  (Nat.mul_add_lt_is_or h a).symm

lemma toU32_eq (b0 b1 b2 b3 : Fin 256) :
    (FourCC.mk b0 b1 b2 b3).toU32
      = b0.val + 256 * b1.val + 65536 * b2.val + 16777216 * b3.val := by
  have h0 := b0.isLt
  have h1 := b1.isLt
  have h2 := b2.isLt
  have h3 := b3.isLt
  have hp24 : (2 : Nat) ^ 24 = 16777216 := by norm_num
  have hp16 : (2 : Nat) ^ 16 = 65536 := by norm_num
  have hp8 : (2 : Nat) ^ 8 = 256 := by norm_num
  simp only [FourCC.toU32]
  rw [mask_shift24 b3, mask_shift16 b2, mask_shift8 b1, mask_low b0]
  have s1 : (16777216 * b3.val) ||| (65536 * b2.val)
      = 16777216 * b3.val + 65536 * b2.val := by
    have hb : 65536 * b2.val < 2 ^ 24 := by omega
    have e : (16777216 : Nat) * b3.val = 2 ^ 24 * b3.val := by rw [hp24]
    rw [e, or_add_of_lt hb, hp24]
  have s2 : (16777216 * b3.val + 65536 * b2.val) ||| (256 * b1.val)
      = 16777216 * b3.val + 65536 * b2.val + 256 * b1.val := by
    have hb : 256 * b1.val < 2 ^ 16 := by omega
    have e : 16777216 * b3.val + 65536 * b2.val
        = 2 ^ 16 * (256 * b3.val + b2.val) := by rw [hp16]; ring
    rw [e, or_add_of_lt hb, hp16]
  have s3 : (16777216 * b3.val + 65536 * b2.val + 256 * b1.val) ||| b0.val
      = 16777216 * b3.val + 65536 * b2.val + 256 * b1.val + b0.val := by
    have hb : b0.val < 2 ^ 8 := by omega
    have e : 16777216 * b3.val + 65536 * b2.val + 256 * b1.val
        = 2 ^ 8 * (65536 * b3.val + 256 * b2.val + b1.val) := by rw [hp8]; ring
    rw [e, or_add_of_lt hb, hp8]
  rw [s1, s2, s3]
  omega

lemma and255_eq_mod (x : Nat) : x &&& 0xff = x % 256 := by
  have h := Nat.and_pow_two_sub_one_eq_mod x 8
  norm_num at h
  exact h

/-- C5: for every 4 byte fourcc value, converting through FourCC to_u32 and
back through From u32 yields the original bytes unchanged; the conversion
pair is a round trip on all 4 byte arrays (ASCII ones in particular). -/
theorem fourcc_u32_roundtrip : ∀ c : FourCC, FourCC.ofU32 c.toU32 = c := by
  intro c
  obtain ⟨b0, b1, b2, b3⟩ := c
  have h := toU32_eq b0 b1 b2 b3
  have h0 := b0.isLt
  have h1 := b1.isLt
  have h2 := b2.isLt
  have h3 := b3.isLt
  have hp24 : (2 : Nat) ^ 24 = 16777216 := by norm_num
  have hp16 : (2 : Nat) ^ 16 = 65536 := by norm_num
  have hp8 : (2 : Nat) ^ 8 = 256 := by norm_num
  have e0 : ((FourCC.mk b0 b1 b2 b3).toU32 &&& 0xff) % 256 = b0.val := by
    rw [and255_eq_mod, h]
    omega
  have e1 : (((FourCC.mk b0 b1 b2 b3).toU32 >>> 8) &&& 0xff) % 256 = b1.val := by
    rw [Nat.shiftRight_eq_div_pow, and255_eq_mod, h, hp8]
    omega
  have e2 : (((FourCC.mk b0 b1 b2 b3).toU32 >>> 16) &&& 0xff) % 256 = b2.val := by
    rw [Nat.shiftRight_eq_div_pow, and255_eq_mod, h, hp16]
    omega
  have e3 : (((FourCC.mk b0 b1 b2 b3).toU32 >>> 24) &&& 0xff) % 256 = b3.val := by
    rw [Nat.shiftRight_eq_div_pow, and255_eq_mod, h, hp24]
    omega
  show FourCC.mk (byteOf ((FourCC.mk b0 b1 b2 b3).toU32 &&& 0xff))
      (byteOf (((FourCC.mk b0 b1 b2 b3).toU32 >>> 8) &&& 0xff))
      (byteOf (((FourCC.mk b0 b1 b2 b3).toU32 >>> 16) &&& 0xff))
      (byteOf (((FourCC.mk b0 b1 b2 b3).toU32 >>> 24) &&& 0xff)) = ⟨b0, b1, b2, b3⟩
  simp only [byteOf, FourCC.mk.injEq]
  exact ⟨Fin.ext e0, Fin.ext e1, Fin.ext e2, Fin.ext e3⟩

/-- The inline fourcc accumulation loop of Frame::new (frame.rs lines
150 to 153): starting from zero, for each byte at index i the byte value
shifted left by 8 times i is added. -/
def frameNewFourccAux : Nat → Nat → List (Fin 256) → Nat
  | acc, _, [] => acc
  | acc, i, b :: rest => frameNewFourccAux (acc + (b.val <<< (i * 8))) (i + 1) rest

/-- The fourcc integer Frame::new computes from the 4 byte string. -/
def frameNewFourcc (bytes : List (Fin 256)) : Nat :=
  frameNewFourccAux 0 0 bytes

/-- C10: for every 4 byte fourcc string, the u32 code the Frame::new loop
computes equals the code FourCC to_u32 produces from the same bytes on the
little endian targets this library supports. -/
theorem frameNewFourcc_eq_toU32 : ∀ b0 b1 b2 b3 : Fin 256,
    frameNewFourcc [b0, b1, b2, b3] = (FourCC.mk b0 b1 b2 b3).toU32 := by
  intro b0 b1 b2 b3
  have h := toU32_eq b0 b1 b2 b3
  rw [h]
  simp only [frameNewFourcc, frameNewFourccAux, Nat.shiftLeft_eq]
  norm_num
  ring

/-- Outcome of the native vsl_frame_init constructor call: a null pointer
(with the errno captured by last_os_error) or a valid frame pointer. -/
inductive NativeInit
  | nullPtr (osErr : IoError)
  | valid
  deriving DecidableEq, Repr

/-- A constructed frame, carrying the metadata Frame::new passes to
vsl_frame_init. -/
structure Frame where
  width : Nat
  height : Nat
  stride : Nat
  fourcc : Nat
  deriving DecidableEq, Repr

/-- Frame::new (frame.rs lines 145 to 169), with the native constructor
outcome as an explicit parameter. The first component of the result records
whether the native constructor vsl_frame_init was invoked. A fourcc whose
byte length is not 4 returns Error::NullPointer before any native call (the
source comment reads: Invalid fourcc is a library error); a null native
pointer becomes an Io error carrying last_os_error. -/
def Frame.new (width height stride : Nat) (bytes : List (Fin 256))
    (native : NativeInit) : Bool × Except Error Frame :=
  if bytes.length ≠ 4 then (false, Except.error Error.nullPointer)
  else
    match native with
    | NativeInit.nullPtr osErr => (true, Except.error (Error.ioErr osErr))
    | NativeInit.valid =>
        (true, Except.ok ⟨width, height, stride, frameNewFourcc bytes⟩)

/-- Modelled from the spec: the spec names a three variant Frame error
taxonomy, NullPointer (operation requires allocated or attached memory,
none present), Io (underlying syscall failure) and InvalidFormat (malformed
fourcc string). The source Error enum in src/lib.rs has no InvalidFormat
variant, so the spec taxonomy is modelled as its own type here. -/
inductive SpecFrameError
  | nullPointer
  | ioFailure
  | invalidFormat
  deriving DecidableEq, Repr

/-- Modelled from the spec: classification of the source error variants into
the spec Frame taxonomy, following the spec descriptions of each variant;
no source variant corresponds to the spec InvalidFormat variant because the
source enum does not have one. -/
def Error.specFrameClass : Error → Option SpecFrameError
  | Error.nullPointer => some SpecFrameError.nullPointer
  | Error.ioErr _ => some SpecFrameError.ioFailure
  | _ => none

/-- C2 counterexample: for the 3 byte fourcc string RGB, Frame::new returns
Error::NullPointer without invoking the native constructor; NullPointer is
not the InvalidFormat variant of the spec taxonomy (no source variant is,
since the source Error enum has no InvalidFormat variant). -/
theorem frameNew_short_fourcc_is_nullPointer :
    Frame.new 640 480 0 [(82 : Fin 256), (71 : Fin 256), (66 : Fin 256)]
        NativeInit.valid
      = (false, Except.error Error.nullPointer)
    ∧ Error.specFrameClass Error.nullPointer ≠ some SpecFrameError.invalidFormat := by
  exact ⟨rfl, by decide⟩

/-- C2 amended: a fourcc whose byte length is not 4 makes Frame::new return
Error::NullPointer (the source has no InvalidFormat variant and deliberately
maps a malformed fourcc to NullPointer) without invoking the native frame
constructor; for every 4 byte string the native constructor is invoked. -/
theorem frameNew_fourcc_length (w h s : Nat) (bytes : List (Fin 256))
    (native : NativeInit) :
    (bytes.length ≠ 4 →
      Frame.new w h s bytes native = (false, Except.error Error.nullPointer))
    ∧ (bytes.length = 4 → (Frame.new w h s bytes native).1 = true) := by
  constructor
  · intro hlen
    simp [Frame.new, hlen]
  · intro hlen
    cases native <;> simp [Frame.new, hlen]

/-- Witness for the amended C2 theorem at the concrete strings RGB and
RGB3. -/
theorem frameNew_fourcc_length_witness :
    Frame.new 1 1 0 [(82 : Fin 256), (71 : Fin 256), (66 : Fin 256)]
        NativeInit.valid
      = (false, Except.error Error.nullPointer)
    ∧ (Frame.new 1 1 0
        [(82 : Fin 256), (71 : Fin 256), (66 : Fin 256), (51 : Fin 256)]
        NativeInit.valid).1 = true := by
  constructor
  · exact (frameNew_fourcc_length 1 1 0 _ _).1 (by decide)
  · exact (frameNew_fourcc_length 1 1 0 _ _).2 (by decide)

/-- Frame::sync (frame.rs lines 294 to 301) exactly as written in the
source: the wrapper maps a NONNEGATIVE native return of vsl_frame_sync to
an Io error carrying last_os_error and a negative return to Ok. Every
sibling wrapper in the crate (trylock, attach, poll, process, post) treats
the negative return as the failure, and the doc comment of sync itself says
it returns an Io error when sync fails. -/
def Frame.sync (ret : Int) (osErr : IoError) : Except Error Unit :=
  if ret ≥ 0 then Except.error (Error.ioErr osErr) else Except.ok ()

/-- C1: the success and failure branches of Frame::sync are inverted. At a
successful native sync (return 0) the wrapper reports an Io error, and at a
failed native sync (return minus 1) it reports Ok, contradicting the claim,
the doc comment of the function and the convention of every other wrapper
in the crate. -/
theorem sync_inverted_check :
    Frame.sync 0 ⟨IoErrorKind.other, 0⟩
        = Except.error (Error.ioErr ⟨IoErrorKind.other, 0⟩)
    ∧ Frame.sync (-1) ⟨IoErrorKind.other, 0⟩ = Except.ok () := by
  constructor
  · simp [Frame.sync]
  · simp [Frame.sync]

/-- Events observable inside the body of Host::post, in order: the
std::mem::forget call on the frame argument, the native vsl_host_post call,
and (if it were ever to run) the Frame Drop glue calling
vsl_frame_release. -/
inductive PostAction
  | memForget
  | nativeHostPost
  | frameRelease
  deriving DecidableEq, Repr

/-- Ownership state of the by value frame argument inside Host::post. -/
inductive FrameOwn
  | owned
  | forgotten
  deriving DecidableEq, Repr

/-- Rust drop glue at scope exit: the Frame Drop impl (frame.rs lines 847
to 859) calls vsl_frame_release, but only runs when the binding still owns
the value; std::mem::forget suppresses it. -/
def dropGlue : FrameOwn → List PostAction
  | FrameOwn.owned => [PostAction.frameRelease]
  | FrameOwn.forgotten => []

/-- Host::post (host.rs lines 271 to 290): the frame is taken by value, its
pointer is read, std::mem::forget(frame) runs unconditionally before the
native vsl_host_post call, and a negative native return becomes an Io error.
The result is the ordered list of events together with the returned value;
the return type carries no frame, so the frame is not handed back on
failure. -/
def Host.post (ret : Int) (osErr : IoError) : List PostAction × Except Error Unit :=
  let own := FrameOwn.forgotten
  ([PostAction.memForget, PostAction.nativeHostPost] ++ dropGlue own,
    if ret < 0 then Except.error (Error.ioErr osErr) else Except.ok ())

/-- C3: for every native post outcome, Host::post never runs the caller
side Frame release (the Drop glue is suppressed by std::mem::forget before
the native call), and the result is either Ok or an Io error with no frame
returned to the caller, so the frame is consumed in both cases. -/
theorem post_never_releases_frame : ∀ (ret : Int) (osErr : IoError),
    PostAction.frameRelease ∉ (Host.post ret osErr).1
    ∧ ((Host.post ret osErr).2 = Except.ok ()
        ∨ (Host.post ret osErr).2 = Except.error (Error.ioErr osErr)) := by
  intro ret osErr
  constructor
  · simp [Host.post, dropGlue]
  · by_cases h : ret < 0 <;> simp [Host.post, h]

/-- Client::disconnect (client.rs lines 143 to 146): the native
vsl_client_disconnect status is discarded and Ok is returned; the only
failure path of the wrapper is library loading. -/
def Client.disconnect (_ret : Int) : Except Error Unit := Except.ok ()

/-- Client::set_timeout (client.rs lines 234 to 237): the timeout is passed
through to native vsl_client_set_timeout and the native status is
discarded. -/
def Client.setTimeout (_ret : Int) : Except Error Unit := Except.ok ()

/-- Frame::unalloc (frame.rs lines 731 to 734): the native vsl_frame_unalloc
status is discarded. -/
def Frame.unalloc (_ret : Int) : Except Error Unit := Except.ok ()

/-- Frame::munmap (frame.rs lines 591 to 594): the native vsl_frame_munmap
status is discarded. -/
def Frame.munmap (_ret : Int) : Except Error Unit := Except.ok ()

/-- Host::sockets (host.rs lines 204 to 233): the first native
vsl_host_sockets call queries the socket count into maxSockets and its
status is bound to an underscore and discarded; a zero count returns an
empty vector immediately; otherwise a second native call fills the buffer
and only that second status is checked for failure. -/
def Host.sockets (_ret1 : Int) (maxSockets : Nat) (ret2 : Int)
    (filled : List Int) (osErr : IoError) : Except Error (List Int) :=
  if maxSockets = 0 then Except.ok []
  else if ret2 < 0 then Except.error (Error.ioErr osErr)
  else Except.ok filled

/-- C4 counterexample: with the native call reporting failure (return minus
1), Client::disconnect, Client::set_timeout, Frame::unalloc and
Frame::munmap all return Ok, and Host::sockets returns Ok with an empty
vector when its failed first call leaves the reported count at zero — so
these operations do not surface the native failure as an Err result. -/
theorem native_failures_swallowed :
    Client.disconnect (-1) = Except.ok ()
    ∧ Client.setTimeout (-1) = Except.ok ()
    ∧ Frame.unalloc (-1) = Except.ok ()
    ∧ Frame.munmap (-1) = Except.ok ()
    ∧ Host.sockets (-1) 0 0 [] ⟨IoErrorKind.other, 0⟩ = Except.ok [] :=
  ⟨rfl, rfl, rfl, rfl, rfl⟩

/-- C4 amended: these wrappers discard the native status. Client::disconnect,
Client::set_timeout, Frame::unalloc and Frame::munmap return Ok for every
native return value (their only failure mode is library loading), and
Host::sockets ignores the status of its first size query call, returning Ok
with an empty vector whenever the reported socket count is zero; only the
second native call of sockets can surface an error. -/
theorem native_status_discarded : ∀ (ret ret1 ret2 : Int) (filled : List Int)
    (osErr : IoError),
    Client.disconnect ret = Except.ok ()
    ∧ Client.setTimeout ret = Except.ok ()
    ∧ Frame.unalloc ret = Except.ok ()
    ∧ Frame.munmap ret = Except.ok ()
    ∧ Host.sockets ret1 0 ret2 filled osErr = Except.ok [] := by
  intro ret ret1 ret2 filled osErr
  exact ⟨rfl, rfl, rfl, rfl, rfl⟩

/-- Native memory state of a frame as seen by the mapping wrappers: whether
vsl_frame_mmap yields a null pointer, and the byte size of the backing
store (the value vsl_frame_size reports and vsl_frame_mmap writes to its
size out parameter). A frame that was never allocated nor attached has a
null mapping and size zero. -/
structure NativeMem where
  ptrNull : Bool
  size : Nat
  deriving DecidableEq, Repr

/-- The Rust cast of the native size value to i32 as in Frame::size
(frame.rs lines 471 to 473): two complement truncation. -/
def i32OfNat (n : Nat) : Int :=
  if n % 4294967296 < 2147483648 then (n % 4294967296 : Int)
  else (n % 4294967296 : Int) - 4294967296

/-- The Rust cast of an i32 value to usize: sign extension then
reinterpretation, i.e. reduction modulo 2 to the 64. -/
def usizeOfI32 (n : Int) : Nat := (n % 18446744073709551616).toNat

/-- Frame::mmap (frame.rs lines 564 to 572): the pointer comes from
vsl_frame_mmap, the size from Frame::size (the native size cast to i32); a
null pointer or zero size is Error::NullPointer, otherwise the returned
slice has length size cast to usize. The model returns the slice length. -/
def Frame.mmap (m : NativeMem) : Except Error Nat :=
  if m.ptrNull || i32OfNat m.size = 0 then Except.error Error.nullPointer
  else Except.ok (usizeOfI32 (i32OfNat m.size))

/-- Frame::mmap_mut (frame.rs lines 580 to 589): the size is taken from the
usize out parameter of vsl_frame_mmap; a null pointer or zero size is
Error::NullPointer, otherwise the returned slice has that length. -/
def Frame.mmapMut (m : NativeMem) : Except Error Nat :=
  if m.ptrNull || m.size = 0 then Except.error Error.nullPointer
  else Except.ok m.size

/-- C6: for any native memory state whose size is i32 representable, mmap
and mmap_mut return Error::NullPointer exactly when the native mapping is a
null pointer or the size is zero (the state of a frame with no backing
memory), and on success both return a slice whose length equals the frame
reported byte size. -/
theorem mmap_nullPointer_iff (m : NativeMem) (hrep : m.size < 2147483648) :
    (Frame.mmap m = Except.error Error.nullPointer
      ↔ (m.ptrNull = true ∨ m.size = 0))
    ∧ (Frame.mmapMut m = Except.error Error.nullPointer
      ↔ (m.ptrNull = true ∨ m.size = 0))
    ∧ (m.ptrNull = false → m.size ≠ 0 →
        Frame.mmap m = Except.ok m.size ∧ Frame.mmapMut m = Except.ok m.size) := by
  have hi : i32OfNat m.size = (m.size : Int) := by
    unfold i32OfNat
    rw [if_pos (by omega)]
    omega
  have hzero : i32OfNat 0 = 0 := by
    unfold i32OfNat
    norm_num
  have hu : usizeOfI32 (m.size : Int) = m.size := by
    unfold usizeOfI32
    omega
  refine ⟨?_, ?_, ?_⟩
  · cases hp : m.ptrNull <;> by_cases hs : m.size = 0 <;>
      simp [Frame.mmap, hp, hi, hs, hu, hzero]
  · cases hp : m.ptrNull <;> by_cases hs : m.size = 0 <;>
      simp [Frame.mmapMut, hp, hs]
  · intro hp hs
    constructor
    · simp [Frame.mmap, hp, hi, hs, hu]
    · simp [Frame.mmapMut, hp, hs]

/-- Witness for C6 at a mapped frame of 100 bytes. -/
theorem mmap_nullPointer_iff_witness :
    Frame.mmap ⟨false, 100⟩ = Except.ok 100
    ∧ Frame.mmapMut ⟨false, 100⟩ = Except.ok 100 :=
  (mmap_nullPointer_iff ⟨false, 100⟩ (by norm_num)).2.2 rfl (by norm_num)

/-- Host::poll (host.rs lines 102 to 109): a negative native vsl_host_poll
return becomes an Io error carrying last_os_error, otherwise the ready
count is returned as is. -/
def Host.poll (ret : Int) (osErr : IoError) : Except Error Int :=
  if ret < 0 then Except.error (Error.ioErr osErr) else Except.ok ret

/-- C7: Host::poll returns the Io error carrying the OS error code exactly
when the native poll reports a negative result, returns Ok with the ready
count for every nonnegative result, and in particular returns Ok zero on
timeout rather than an error. -/
theorem poll_error_iff_negative : ∀ (ret : Int) (osErr : IoError),
    (Host.poll ret osErr = Except.error (Error.ioErr osErr) ↔ ret < 0)
    ∧ (Host.poll ret osErr = Except.ok ret ↔ 0 ≤ ret)
    ∧ Host.poll 0 osErr = Except.ok 0 := by
  intro ret osErr
  refine ⟨?_, ?_, by simp [Host.poll]⟩ <;>
    by_cases h : ret < 0 <;> simp [Host.poll, h] <;> omega

/-- CliError from src/crates/videostream-cli/src/error.rs lines 9 to 22.
Each source variant carries a diagnostic String message; the messages do
not affect exit codes or routing and are omitted here. -/
inductive CliError
  | invalidArgs
  | cameraNotFound
  | encoderUnavailable
  | socketError
  | timeout
  | general
  deriving DecidableEq, Repr

/-- The exit_code method of CliError (error.rs lines 43 to 52). -/
def CliError.exitCode : CliError → Nat
  | CliError.invalidArgs => 2
  | CliError.cameraNotFound => 3
  | CliError.encoderUnavailable => 4
  | CliError.socketError => 5
  | CliError.timeout => 6
  | CliError.general => 1

/-- The From conversion of library errors into CliError (error.rs lines 56
to 110). -/
def CliError.ofError : Error → CliError
  | Error.symbolNotFound _ => CliError.encoderUnavailable
  | Error.hardwareNotAvailable _ => CliError.encoderUnavailable
  | Error.ioErr e =>
      match e.kind with
      | IoErrorKind.notFound => CliError.cameraNotFound
      | IoErrorKind.timedOut => CliError.timeout
      | IoErrorKind.connectionRefused => CliError.socketError
      | IoErrorKind.connectionReset => CliError.socketError
      | IoErrorKind.connectionAborted => CliError.socketError
      | IoErrorKind.brokenPipe => CliError.socketError
      | IoErrorKind.permissionDenied => CliError.cameraNotFound
      | IoErrorKind.other => CliError.general
  | Error.libraryNotLoaded => CliError.general
  | Error.utf8 => CliError.general
  | Error.cstring => CliError.general
  | Error.tryFromInt => CliError.general
  | Error.nullPointer => CliError.general

/-- C8: the CLI error kinds carry exactly the specified exit codes (invalid
arguments 2, device not found 3, encoder unavailable 4, socket error 5,
timeout 6, general 1), and the conversion from library errors routes an Io
error of kind TimedOut to the timeout code, NotFound to the device not
found code, and the connection refused, reset, aborted and broken pipe
kinds to the socket error code, for every OS error code value. -/
theorem cli_exit_code_mapping : ∀ c : Int,
    CliError.invalidArgs.exitCode = 2
    ∧ CliError.cameraNotFound.exitCode = 3
    ∧ CliError.encoderUnavailable.exitCode = 4
    ∧ CliError.socketError.exitCode = 5
    ∧ CliError.timeout.exitCode = 6
    ∧ CliError.general.exitCode = 1
    ∧ CliError.ofError (Error.ioErr ⟨IoErrorKind.timedOut, c⟩) = CliError.timeout
    ∧ CliError.ofError (Error.ioErr ⟨IoErrorKind.notFound, c⟩)
        = CliError.cameraNotFound
    ∧ CliError.ofError (Error.ioErr ⟨IoErrorKind.connectionRefused, c⟩)
        = CliError.socketError
    ∧ CliError.ofError (Error.ioErr ⟨IoErrorKind.connectionReset, c⟩)
        = CliError.socketError
    ∧ CliError.ofError (Error.ioErr ⟨IoErrorKind.connectionAborted, c⟩)
        = CliError.socketError
    ∧ CliError.ofError (Error.ioErr ⟨IoErrorKind.brokenPipe, c⟩)
        = CliError.socketError
    ∧ (CliError.ofError (Error.ioErr ⟨IoErrorKind.timedOut, c⟩)).exitCode = 6
    ∧ (CliError.ofError (Error.ioErr ⟨IoErrorKind.notFound, c⟩)).exitCode = 3
    ∧ (CliError.ofError (Error.ioErr ⟨IoErrorKind.connectionRefused, c⟩)).exitCode
        = 5 :=
  fun _ => ⟨rfl, rfl, rfl, rfl, rfl, rfl, rfl, rfl, rfl, rfl, rfl, rfl, rfl, rfl,
    rfl⟩

/-- Modelled from the spec: the serial assignment of a single Host lives in
the native library (vsl_host_post increments the publish counter and
vsl_frame_serial reads it), which is not under src. Per the spec the serial
number is a monotonically increasing publish counter, so the n-th frame
posted by a host carries serial first plus n. -/
def hostSerial (first : Int) (n : Nat) : Int := first + n

/-- Modelled from the spec: within a single connection a continuously
connected Client observes a subsequence of the posted frames in publish
order with no reordering; gaps are dropped frames. Observation k is the
frame with publish index sel k for a strictly monotone selection sel, and
this is the serial of the k-th frame returned by Client::get_frame. -/
def observedSerial (first : Int) (sel : Nat → Nat) (k : Nat) : Int :=
  hostSerial first (sel k)

/-- C9: within a single connection the serials of the frames a client
receives from one host are strictly increasing (hence also non decreasing)
in observation order. -/
theorem client_serials_strictly_increasing
    (first : Int) (sel : Nat → Nat) (hsel : StrictMono sel) :
    ∀ i j : Nat, i < j → observedSerial first sel i < observedSerial first sel j := by
  intro i j hij
  have hs := hsel hij
  unfold observedSerial hostSerial
  omega

/-- Witness for C9 at a client observing every second frame of a host whose
first serial is 5. -/
theorem client_serials_strictly_increasing_witness :
    observedSerial 5 (fun k => 2 * k) 0 < observedSerial 5 (fun k => 2 * k) 1 :=
  client_serials_strictly_increasing 5 (fun k => 2 * k)
    (fun a b hab => by
      show 2 * a < 2 * b
      omega) 0 1 (by decide)

end VideoStream
